import Mathlib

/-
Shallow embedding of the turn-orchestration core of the openai-cua-sample-app
repository: the Agent item dispatcher and turn loop (src/agent/agent.py), the
websocket server message handler (src/server.py), and the backend adapters
relevant to the verified claims (src/computers/pig.py, pyautogui_computer.py,
e2b.py).  Python dicts flowing through the protocol are modelled as inductive
item types; side effects of backend calls are recorded as explicit event
traces; exceptions are modelled with Except.
-/

namespace Cua

/-! ## Data model (conversation items, src/agent/agent.py) -/

/-- A pending safety check attached to a computer call: `{id, message}`. -/
structure SafetyCheck where
  id : Nat
  message : String
deriving DecidableEq, Repr

/-- A computer-call action dict: its `type` tag plus the remaining key/value
arguments (`action_args = {k: v for k, v in action.items() if k != "type"}`,
src/agent/agent.py line 95).  Argument values in the canonical vocabulary are
integers/coordinates; they are modelled as `Int` and treated opaquely. -/
structure CompAction where
  actionType : String
  args : List (String × Int)
deriving DecidableEq, Repr

/-- Conversation items exchanged with the model (the dict shapes dispatched by
`Agent.handle_item`).  `arguments` of a function call stands for the value
decoded by `json.loads(item["arguments"])`, carried opaquely.  `other` covers
item types the dispatcher ignores (e.g. reasoning items). -/
inductive Item where
  | message (role : String) (text : String)
  | functionCall (name : String) (arguments : String) (callId : String)
  | computerCall (action : CompAction) (callId : String)
      (pendingSafetyChecks : List SafetyCheck)
  | functionCallOutput (callId : String) (output : String)
  | computerCallOutput (callId : String)
      (acknowledgedSafetyChecks : List SafetyCheck) (imageUrl : String)
      (currentUrl : Option String)
  | other
deriving DecidableEq, Repr

/-- Python `item.get("role")`: only message items carry a `role` key. -/
def Item.roleGet : Item → Option String
  | .message role _ => some role
  | _ => none

/-- Python `item.get("call_id")` on the two output item shapes. -/
def Item.callIdGet : Item → Option String
  | .functionCallOutput callId _ => some callId
  | .computerCallOutput callId _ _ _ => some callId
  | _ => none

/-! ## The Surface (the `computer` object held by the Agent) -/

/-- Abstract view of one backend Surface as the dispatcher sees it:
`methods` is the set of attribute names it exposes (`hasattr` probes),
`environment` its tag, `screenshotResult` the base64 string `screenshot()`
returns, `currentUrl` what `get_current_url()` returns.  The embedding
assumes every canonical computer-call action name is exposed (true of all
bundled backends), so the `getattr` on the computer-call path succeeds;
`methods` gates only the duck-typed `hasattr` probe on the function-call
path. -/
structure Computer where
  methods : List String
  environment : String
  screenshotResult : String
  currentUrl : String

/-- Side effects performed by `Agent.handle_item`, in order: prints of steps,
backend method/action invocations, the screenshot capture, image display,
safety-gate callback invocations (`acknowledge_safety_check_callback`), and
the browser-only URL fetch and blocklist check. -/
inductive Event where
  | printText (text : String)
  | printCall (name : String) (arguments : String)
  | printAction (actionType : String) (args : List (String × Int))
  | methodCall (name : String) (arguments : String)
  | actionCall (actionType : String) (args : List (String × Int))
  | screenshotCall
  | showImageCall (image : String)
  | confirmCall (message : String)
  | getCurrentUrlCall
  | urlBlocklistCheck (url : String)
deriving DecidableEq, Repr

/-- Recognizer for backend action invocations. -/
def Event.isActionCall : Event → Bool
  | .actionCall _ _ => true
  | _ => false

/-- Recognizer for safety-gate callback invocations. -/
def Event.isConfirmCall : Event → Bool
  | .confirmCall _ => true
  | _ => false

/-- Message of the `ValueError` raised on an unacknowledged safety check
(src/agent/agent.py lines 111-113). -/
def safetyFailMsg (message : String) : String :=
  "Safety check failed: " ++ message ++
    ". Cannot continue with unacknowledged safety checks."

/-- Modelled from the spec: `check_blocklisted_url` lives in utils.py, which
is not under src/; the spec calls it "a blocklist check (external
collaborator) that can itself raise".  Its raise condition is abstracted as
the `blocked` predicate passed to the dispatcher, and the exact exception
text is immaterial to every claim. -/
def blockedUrlMsg (url : String) : String := "Blocked URL: " ++ url

/-- The safety-check loop of `Agent.handle_item` (lines 107-113): invoke the
acknowledgment callback on each pending check's message in order; on the
first check whose callback returns false, stop and report that message.
Returns the first failing message (if any) and the trace of callback
invocations actually made. -/
def runSafetyChecks (ack : String → Bool) :
    List SafetyCheck → Option String × List Event
  | [] => (none, [])
  | check :: rest =>
    if ack check.message then
      let r := runSafetyChecks ack rest
      (r.1, Event.confirmCall check.message :: r.2)
    else
      (some check.message, [Event.confirmCall check.message])

/-- First pending check whose callback returns false, by list order. -/
def firstFailedCheck (ack : String → Bool) (checks : List SafetyCheck) :
    Option String :=
  (checks.find? (fun c => !(ack c.message))).map SafetyCheck.message

/-- `Agent.handle_item` (src/agent/agent.py lines 70-132).  Returns the items
to append to the turn state (`Except.error` when the Python code raises) plus
the ordered trace of side effects.  `printSteps`/`showImages` are the agent
flags, `ack` is `acknowledge_safety_check_callback`, `blocked` abstracts
`check_blocklisted_url`. -/
def handleItem (printSteps showImages : Bool) (comp : Computer)
    (ack blocked : String → Bool) : Item → Except String (List Item) × List Event
  | .message _ text =>
    (.ok [], if printSteps then [.printText text] else [])
  | .functionCall name arguments callId =>
    let trace := (if printSteps then [Event.printCall name arguments] else []) ++
      (if comp.methods.contains name then [Event.methodCall name arguments] else [])
    (.ok [.functionCallOutput callId "success"], trace)
  | .computerCall action callId pendingChecks =>
    let traceHead :=
      (if printSteps then [Event.printAction action.actionType action.args] else []) ++
      [Event.actionCall action.actionType action.args, Event.screenshotCall] ++
      (if showImages then [Event.showImageCall comp.screenshotResult] else [])
    match runSafetyChecks ack pendingChecks with
    | (some message, checksTrace) =>
      (.error (safetyFailMsg message), traceHead ++ checksTrace)
    | (none, checksTrace) =>
      if comp.environment == "browser" then
        let urlTrace := [Event.getCurrentUrlCall, Event.urlBlocklistCheck comp.currentUrl]
        if blocked comp.currentUrl then
          (.error (blockedUrlMsg comp.currentUrl), traceHead ++ checksTrace ++ urlTrace)
        else
          (.ok [.computerCallOutput callId pendingChecks
              ("data:image/png;base64," ++ comp.screenshotResult)
              (some comp.currentUrl)],
           traceHead ++ checksTrace ++ urlTrace)
      else
        (.ok [.computerCallOutput callId pendingChecks
            ("data:image/png;base64," ++ comp.screenshotResult) none],
         traceHead ++ checksTrace)
  | .functionCallOutput _ _ => (.ok [], [])
  | .computerCallOutput _ _ _ _ => (.ok [], [])
  | .other => (.ok [], [])

/-! ## Turn loop (`Agent.run_full_turn`, src/agent/agent.py lines 146-169;
the Octotools delegation branch is out of scope per the spec and is not
entered when `use_octotools` is false, the configuration all claims are
about). -/

/-- The model transport's reply: `output` is `none` when the response dict
carries no "output" key. -/
structure ModelResponse where
  output : Option (List Item)

/-- Outcome of `run_full_turn`: normal return, a raised exception, or
non-termination within the given fuel. -/
inductive TurnResult where
  | done (newItems : List Item)
  | failed (msg : String)
  | outOfFuel
deriving DecidableEq, Repr

/-- The while-loop guard
`new_items[-1].get("role") != "assistant" if new_items else True`. -/
def loopContinues (newItems : List Item) : Bool :=
  match newItems.getLast? with
  | none => true
  | some item => item.roleGet != some "assistant"

/-- Message of the deliberate `ValueError` raised in debug mode when the
response has no output (line 163). -/
def noOutputMsg : String := "No output from model"

/-- Stands for the uncaught Python `KeyError` raised by
`new_items += response["output"]` (line 165) when the response has no
"output" key and debug mode is off. -/
def keyErrorOutputMsg : String := "KeyError: output"

/-- The per-response dispatch: `for item in response["output"]:
new_items += self.handle_item(item)` — the accumulator already holds
`new_items + response["output"]`. -/
def dispatchItems (printSteps showImages : Bool) (comp : Computer)
    (ack blocked : String → Bool) :
    List Item → List Item → Except String (List Item)
  | [], acc => .ok acc
  | item :: rest, acc =>
    match handleItem printSteps showImages comp ack blocked item with
    | (.error e, _) => .error e
    | (.ok outs, _) =>
      dispatchItems printSteps showImages comp ack blocked rest (acc ++ outs)

/-- The `while` loop of `run_full_turn`, fuel-indexed: one fuel unit per
model-transport round trip.  `respond` is the model transport
(`create_response`), called on `input_items + new_items`. -/
def runFullTurnAux (printSteps debug showImages : Bool) (comp : Computer)
    (ack blocked : String → Bool) (respond : List Item → ModelResponse)
    (inputItems : List Item) : Nat → List Item → TurnResult
  | 0, newItems =>
    if loopContinues newItems then .outOfFuel else .done newItems
  | fuel + 1, newItems =>
    if loopContinues newItems then
      let response := respond (inputItems ++ newItems)
      match response.output with
      | none => if debug then .failed noOutputMsg else .failed keyErrorOutputMsg
      | some out =>
        match dispatchItems printSteps showImages comp ack blocked out
            (newItems ++ out) with
        | .error e => .failed e
        | .ok newItems' =>
          runFullTurnAux printSteps debug showImages comp ack blocked respond
            inputItems fuel newItems'
    else .done newItems

/-- `Agent.run_full_turn` starts with `new_items = []`. -/
def runFullTurn (printSteps debug showImages : Bool) (comp : Computer)
    (ack blocked : String → Bool) (respond : List Item → ModelResponse)
    (inputItems : List Item) (fuel : Nat) : TurnResult :=
  runFullTurnAux printSteps debug showImages comp ack blocked respond
    inputItems fuel []

/-- A concrete Surface used by witnesses: a non-browser backend exposing the
canonical vocabulary. -/
def sampleComputer : Computer :=
  { methods := ["screenshot", "click", "double_click", "scroll", "type",
      "wait", "move", "keypress", "drag"]
    environment := "linux"
    screenshotResult := "IMG"
    currentUrl := "https://example.com" }

/-! ## Server message handler (src/server.py, `connect`) -/

/-- One successfully JSON-decoded client message, viewed through the key
probes the handler performs: `"reset" in data`, `"safety_check_response" in
data` (with its value), `"input" in data` (with its value). -/
structure ClientData where
  hasReset : Bool
  safetyCheckResponse : Option Bool
  input : Option String
deriving DecidableEq, Repr

/-- A received client frame: either undecodable JSON or a decoded message. -/
inductive ClientMsg where
  | malformed
  | parsed (data : ClientData)
deriving DecidableEq, Repr

/-- Frames the handler sends back, by their JSON shape. -/
inductive ServerFrame where
  | errorFrame (msg : String)
  | messageFrame (msg : String)
deriving DecidableEq, Repr

/-- Per-connection mutable state of `connect`: the in-flight flag, the
conversation history, and the thread-safe safety-response queue. -/
structure ServerState where
  processingTurn : Bool
  conversationItems : List Item
  safetyResponseQueue : List Bool
deriving DecidableEq, Repr

/-- Reply to undecodable JSON (src/server.py line 79). -/
def invalidJsonError : String := "Invalid JSON message"

/-- Reply to an input arriving while a turn is in flight (lines 97-99). -/
def busyError : String := "Agent is processing a previous request. Please wait."

/-- Reply to a message with none of the recognized keys (lines 151-156). -/
def unrecognizedError : String :=
  "Unrecognized message format. Expecting a JSON with either \x27input\x27 or \x27safety_check_response\x27."

/-- Terminal notice on an "exit" input (line 104). -/
def exitingMessage : String := "Exiting connection."

/-- The developer instructions appended once to an empty conversation
(src/server.py lines 110-125); the exact wording is immaterial to the claims
and is abbreviated to its opening words. -/
def developerPrompt : String :=
  "You are a highly capable, thoughtful, and precise assistant."

/-- One iteration of the `connect` receive loop (src/server.py lines 69-156)
on an already-received frame.  `runTurn` abstracts the executor call to
`agent.run_full_turn` (its raised exceptions become `Except.error`).  Returns
the frames sent, the updated state, and whether the receive loop continues
(false on `break`).  Status-update and safety-check frames sent from inside
the worker are out of this per-message view. -/
def handleClientMessage (runTurn : List Item → Except String (List Item))
    (st : ServerState) : ClientMsg → List ServerFrame × ServerState × Bool
  | .malformed => ([.errorFrame invalidJsonError], st, true)
  | .parsed d =>
    if d.hasReset then
      ([], { st with conversationItems := [] }, true)
    else
      match d.safetyCheckResponse with
      | some response =>
        ([], { st with safetyResponseQueue := st.safetyResponseQueue ++ [response] },
         true)
      | none =>
        match d.input with
        | some userInput =>
          if st.processingTurn then
            ([.errorFrame busyError], st, true)
          else if userInput == "exit" then
            ([.messageFrame exitingMessage], st, false)
          else
            let conv0 :=
              if st.conversationItems.isEmpty then
                [Item.message "developer" developerPrompt]
              else st.conversationItems
            let conv1 := conv0 ++ [Item.message "user" userInput]
            match runTurn conv1 with
            | .ok outs =>
              let st' := { st with
                conversationItems := conv1 ++ outs
                processingTurn := false }
              ([], st', true)
            | .error e =>
              let st' := { st with
                conversationItems := conv1
                processingTurn := false }
              ([.errorFrame e], st', true)
        | none => ([.errorFrame unrecognizedError], st, true)

/-! ## Coordinate scaling (src/computers/pig.py, `PigWindows`) -/

/-- Python `int(a / b)` on the exact quotient of machine-size integers:
float division followed by truncation toward zero.  (For the coordinate
magnitudes involved the float computation is exact, so truncated rational
division models it.) -/
def pytrunc (a b : Int) : Int := Int.tdiv a b

/-- The fixed virtual viewport the model operates on
(`self.dimensions = (1024, 768)`, src/computers/pig.py line 25). -/
def modelDims : Int × Int := (1024, 768)

/-- `PigWindows.to_screen_coordinates` (lines 46-58): scale model coordinates
to physical screen coordinates and clamp into `[0, screen_dim - 1]`.  The
`None` passthrough guard is outside the integer domain modelled here. -/
def to_screen_coordinates (screen_w screen_h model_x model_y : Int) : Int × Int :=
  let screen_x := pytrunc (model_x * screen_w) modelDims.1
  let screen_y := pytrunc (model_y * screen_h) modelDims.2
  (max 0 (min screen_x (screen_w - 1)), max 0 (min screen_y (screen_h - 1)))

/-- `PigWindows.to_model_coordinates` (lines 60-72): scale physical screen
coordinates to model coordinates and clamp into the model viewport. -/
def to_model_coordinates (screen_w screen_h screen_x screen_y : Int) : Int × Int :=
  let model_x := pytrunc (screen_x * modelDims.1) screen_w
  let model_y := pytrunc (screen_y * modelDims.2) screen_h
  (max 0 (min model_x (modelDims.1 - 1)), max 0 (min model_y (modelDims.2 - 1)))

/-! ## Key mapping (src/computers/pig.py lines 113-132 and 156-233,
src/computers/pyautogui_computer.py lines 10-36 and 121-127) -/

/-- Python `str.lower` restricted to ASCII, which covers the entire canonical
key vocabulary (and agrees there with CPython's Unicode lowercasing). -/
def asciiLowerChar (c : Char) : Char :=
  if c.toNat ≥ 65 ∧ c.toNat ≤ 90 then Char.ofNat (c.toNat + 32) else c

/-- ASCII lowercasing of a string, character by character. -/
def asciiLower (s : String) : String := String.mk (s.data.map asciiLowerChar)

/-- Python `dict.get(key, default)` over an association-list view of a static
dict with distinct keys. -/
def dictGet (table : List (String × String)) (key : String) : Option String :=
  (table.find? (fun p => p.1 == key)).map Prod.snd

/-- `CUA_KEY_TO_PIG_KEY` (src/computers/pig.py lines 156-233), verbatim. -/
def CUA_KEY_TO_PIG_KEY : List (String × String) := [
  ("arrowdown", "down"), ("arrowleft", "left"), ("arrowright", "right"),
  ("arrowup", "up"), ("backspace", "backspace"), ("capslock", "caps_lock"),
  ("delete", "delete"), ("end", "end"), ("enter", "return"), ("esc", "escape"),
  ("home", "home"), ("insert", "insert"), ("pagedown", "page_down"),
  ("pageup", "page_up"), ("tab", "tab"), ("space", "space"),
  ("alt", "alt"), ("ctrl", "ctrl"), ("control", "ctrl"), ("cmd", "super"),
  ("win", "super"), ("meta", "super"), ("shift", "shift"), ("option", "alt"),
  ("f1", "f1"), ("f2", "f2"), ("f3", "f3"), ("f4", "f4"), ("f5", "f5"),
  ("f6", "f6"), ("f7", "f7"), ("f8", "f8"), ("f9", "f9"), ("f10", "f10"),
  ("f11", "f11"), ("f12", "f12"),
  ("/", "forwardslash"), ("\\", "backslash"), ("-", "minus"), ("=", "equal"),
  ("[", "bracketleft"), ("]", "bracketright"), (";", "semicolon"),
  ("\x27", "quote"), ("`", "grave"), (",", "comma"), (".", "period"),
  ("!", "exclam"), ("@", "at"), ("#", "numbersign"), ("$", "dollar"),
  ("%", "percent"), ("^", "caret"), ("&", "ampersand"), ("*", "asterisk"),
  ("(", "parenleft"), (")", "parenright"), ("_", "underscore"), ("+", "plus"),
  ("\x7b", "braceleft"), ("\x7d", "braceright"), (":", "colon"),
  ("\x22", "quotedbl"), ("~", "asciitilde"), ("<", "less"), (">", "greater"),
  ("?", "question")]

/-- `CUA_KEY_TO_PYAUTOGUI_KEY` (src/computers/pyautogui_computer.py lines
10-36), verbatim. -/
def CUA_KEY_TO_PYAUTOGUI_KEY : List (String × String) := [
  ("/", "/"), ("\\", "\\"), ("alt", "alt"), ("arrowdown", "down"),
  ("arrowleft", "left"), ("arrowright", "right"), ("arrowup", "up"),
  ("backspace", "backspace"), ("capslock", "capslock"), ("cmd", "command"),
  ("ctrl", "ctrl"), ("delete", "delete"), ("end", "end"), ("enter", "enter"),
  ("esc", "escape"), ("home", "home"), ("insert", "insert"),
  ("option", "option"), ("pagedown", "pagedown"), ("pageup", "pageup"),
  ("shift", "shift"), ("space", "space"), ("super", "win"), ("tab", "tab"),
  ("win", "win")]

/-- Per-key mapping performed by `PigWindows.keypress` (lines 121-128): the
key is lowercased first, then looked up, the lowercased key itself being the
default: `CUA_KEY_TO_PIG_KEY.get(key, key)` over `key.lower()`. -/
def pigMapKey (key : String) : String :=
  (dictGet CUA_KEY_TO_PIG_KEY (asciiLower key)).getD (asciiLower key)

/-- The mapped key list `PigWindows.keypress` builds before joining. -/
def pigMappedKeys (keys : List String) : List String := keys.map pigMapKey

/-- The combo string `PigWindows.keypress` sends to `connection.key`
(line 131: keys joined with "+"). -/
def pigKeypressCombo (keys : List String) : String :=
  String.intercalate "+" (pigMappedKeys keys)

/-- Per-key mapping performed by `PyAutoGUIComputer.keypress` (line 124):
`CUA_KEY_TO_PYAUTOGUI_KEY.get(key.lower(), key)` — the lookup lowercases,
but the default is the ORIGINAL key. -/
def pyautoguiMapKey (key : String) : String :=
  (dictGet CUA_KEY_TO_PYAUTOGUI_KEY (asciiLower key)).getD key

/-- The argument list `PyAutoGUIComputer.keypress` passes to
`pyautogui.hotkey`. -/
def pyautoguiMappedKeys (keys : List String) : List String :=
  keys.map pyautoguiMapKey

/-! ## Drag (src/computers/pig.py lines 134-151, src/computers/e2b.py
lines 70-79) -/

/-- A point of a drag path (`{"x": ..., "y": ...}`). -/
structure DragPoint where
  x : Int
  y : Int
deriving DecidableEq, Repr

/-- Calls `PigWindows.drag` issues on its connection. -/
inductive PigBackendCall where
  | mouseMove (x y : Int)
  | leftClickDrag (x y : Int)
deriving DecidableEq, Repr

/-- `PigWindows.drag`: empty path returns immediately; otherwise every point
is converted to screen coordinates, then the connection is sent a mouse move
to the first converted point and a click-drag to the last. -/
def pigDragCalls (screen_w screen_h : Int) (path : List DragPoint) :
    List PigBackendCall :=
  match path with
  | [] => []
  | p :: rest =>
    let screen_path := (p :: rest).map
      (fun q => to_screen_coordinates screen_w screen_h q.x q.y)
    let first_point := screen_path.headD (0, 0)
    let last_point := screen_path.getLastD (0, 0)
    [.mouseMove first_point.1 first_point.2,
     .leftClickDrag last_point.1 last_point.2]

/-- Call `E2BDesktop.drag` issues on its sandbox. -/
inductive E2BBackendCall where
  | dragCall (start_x start_y end_x end_y : Int)
deriving DecidableEq, Repr

/-- `E2BDesktop.drag`: empty path returns immediately; otherwise one
`sandbox.drag((start_x, start_y), (end_x, end_y))` from `path[0]` to
`path[-1]`. -/
def e2bDragCalls (path : List DragPoint) : List E2BBackendCall :=
  match path with
  | [] => []
  | p :: rest =>
    let lastP := (p :: rest).getLastD ⟨0, 0⟩
    [.dragCall p.x p.y lastP.x lastP.y]

/-! ## Helper lemmas -/

/-- The safety-check loop reports exactly the first check (in list order)
whose acknowledgment callback returns false. -/
theorem runSafetyChecks_fst (ack : String → Bool) (checks : List SafetyCheck) :
    (runSafetyChecks ack checks).1 = firstFailedCheck ack checks := by
  induction checks with
  | nil => rfl
  | cons check rest ih =>
    by_cases h : ack check.message <;>
      simp [runSafetyChecks, firstFailedCheck, List.find?_cons, h] <;>
      simpa [firstFailedCheck] using ih

/-- Every event emitted by the safety-check loop is a gate invocation. -/
theorem runSafetyChecks_events (ack : String → Bool) (checks : List SafetyCheck) :
    ∀ e ∈ (runSafetyChecks ack checks).2, e.isConfirmCall = true := by
  induction checks with
  | nil => simp [runSafetyChecks]
  | cons check rest ih =>
    by_cases h : ack check.message <;>
      simp [runSafetyChecks, h, Event.isConfirmCall] <;> exact ih

/-- The while-loop guard is false exactly when the last accumulated item
carries role "assistant". -/
theorem loopContinues_false_iff (l : List Item) :
    loopContinues l = false ↔ l.getLast?.bind Item.roleGet = some "assistant" := by
  unfold loopContinues
  cases h : l.getLast? with
  | none => simp
  | some item => simp

/-! ## Claim theorems -/

/-- C3: for every function_call item the dispatcher never raises on a method
name the Surface does not expose: the result is always `ok` with exactly one
FunctionCallOutput carrying the fixed success sentinel, and the backend
method is invoked iff the Surface exposes it (`hasattr` probe). -/
theorem function_call_graceful_dispatch (printSteps showImages : Bool)
    (comp : Computer) (ack blocked : String → Bool)
    (name arguments callId : String) :
    (handleItem printSteps showImages comp ack blocked
        (.functionCall name arguments callId)).1 =
      .ok [.functionCallOutput callId "success"] ∧
    (Event.methodCall name arguments ∈
        (handleItem printSteps showImages comp ack blocked
          (.functionCall name arguments callId)).2 ↔
      comp.methods.contains name = true) := by
  constructor
  · rfl
  · by_cases h : comp.methods.contains name <;>
      by_cases hp : printSteps <;> simp [handleItem, h, hp]

/-- C4 counterexample: with debug off and a model response carrying no
"output" field, `run_full_turn` does NOT silently continue to the next
iteration — `new_items += response["output"]` raises an uncaught KeyError,
so the loop fails rather than spinning. -/
theorem no_output_silent_continue_counterexample :
    runFullTurnAux true false false sampleComputer (fun _ => false)
        (fun _ => false) (fun _ => ModelResponse.mk none) [] 5 [] =
      .failed keyErrorOutputMsg ∧
    TurnResult.failed keyErrorOutputMsg ≠ .outOfFuel := by
  exact ⟨rfl, by simp⟩

/-- C4 (amended): whenever the model response carries no "output" field and
the loop is still running, the turn raises in BOTH modes: the deliberate
"No output from model" ValueError in debug mode, and an uncaught KeyError
otherwise.  It never silently continues. -/
theorem no_output_always_raises (printSteps debug showImages : Bool)
    (comp : Computer) (ack blocked : String → Bool)
    (respond : List Item → ModelResponse) (inputItems newItems : List Item)
    (fuel : Nat)
    (hcont : loopContinues newItems = true)
    (hnone : (respond (inputItems ++ newItems)).output = none) :
    runFullTurnAux printSteps debug showImages comp ack blocked respond
        inputItems (fuel + 1) newItems =
      .failed (if debug then noOutputMsg else keyErrorOutputMsg) := by
  by_cases hd : debug <;> simp [runFullTurnAux, hcont, hnone, hd]

/-- C4 witness: the amended theorem applied at a concrete stub transport in
debug mode. -/
theorem no_output_always_raises_witness :
    runFullTurnAux true true false sampleComputer (fun _ => true)
        (fun _ => false) (fun _ => ModelResponse.mk none) [] 1 [] =
      .failed noOutputMsg := by
  simpa using no_output_always_raises true true false sampleComputer
    (fun _ => true) (fun _ => false) (fun _ => ModelResponse.mk none) [] [] 0
    rfl rfl

/-- C6: every protocol error — undecodable JSON, an unrecognized message
shape, or an input arriving while a turn is in flight — is answered with an
error frame (for the in-flight case, exactly the "Agent is processing a
previous request. Please wait." text), the state is left unchanged, and the
receive loop keeps the connection open. -/
theorem protocol_errors_keep_connection_open
    (runTurn : List Item → Except String (List Item)) (st : ServerState) :
    (handleClientMessage runTurn st .malformed =
      ([.errorFrame invalidJsonError], st, true)) ∧
    (∀ d : ClientData, d.hasReset = false → d.safetyCheckResponse = none →
      d.input = none →
      handleClientMessage runTurn st (.parsed d) =
        ([.errorFrame unrecognizedError], st, true)) ∧
    (∀ (d : ClientData) (s : String), d.hasReset = false →
      d.safetyCheckResponse = none → d.input = some s →
      st.processingTurn = true →
      handleClientMessage runTurn st (.parsed d) =
        ([.errorFrame busyError], st, true)) := by
  refine ⟨rfl, ?_, ?_⟩
  · intro d h1 h2 h3
    simp [handleClientMessage, h1, h2, h3]
  · intro d s h1 h2 h3 hp
    simp [handleClientMessage, h1, h2, h3, hp]

/-- C6 witness: the busy reply on a concrete input frame received while a
turn is in flight, via the theorem. -/
theorem protocol_errors_witness :
    handleClientMessage (fun _ => .ok []) ⟨true, [], []⟩
        (.parsed ⟨false, none, some "open calculator"⟩) =
      ([.errorFrame busyError], ⟨true, [], []⟩, true) :=
  (protocol_errors_keep_connection_open (fun _ => .ok [])
    ⟨true, [], []⟩).2.2 ⟨false, none, some "open calculator"⟩
    "open calculator" rfl rfl rfl rfl

/-- C8 counterexample: tokens that are not keys of a backend mapping table
are not always passed through unchanged.  PigWindows lowercases every token
before the native call ("A" becomes "a"), and PyAutoGUI replaces "CMD" by
"command" although "CMD" itself is not a key of its table — both backends
look tokens up by their lowercase form. -/
theorem keypress_passthrough_counterexample :
    (dictGet CUA_KEY_TO_PIG_KEY "A" = none ∧ pigMapKey "A" ≠ "A") ∧
    (dictGet CUA_KEY_TO_PYAUTOGUI_KEY "CMD" = none ∧
      pyautoguiMapKey "CMD" = "command" ∧ "command" ≠ "CMD") := by
  exact ⟨⟨by decide, by decide⟩, by decide, by decide, by decide⟩

/-- C8 (amended): for canonical lowercase key tokens the claim holds in both
backends: a lowercase token that is not a key of the backend table is passed
to the native call unchanged, and one that is a key is replaced by its
mapped native name; `keypress` applies this mapping pointwise to the key
list. -/
theorem keypress_lowercase_passthrough (key : String)
    (hlow : asciiLower key = key) :
    (dictGet CUA_KEY_TO_PIG_KEY key = none → pigMapKey key = key) ∧
    (∀ v, dictGet CUA_KEY_TO_PIG_KEY key = some v → pigMapKey key = v) ∧
    (dictGet CUA_KEY_TO_PYAUTOGUI_KEY key = none → pyautoguiMapKey key = key) ∧
    (∀ v, dictGet CUA_KEY_TO_PYAUTOGUI_KEY key = some v →
      pyautoguiMapKey key = v) ∧
    (∀ keys, pigMappedKeys keys = keys.map pigMapKey ∧
      pyautoguiMappedKeys keys = keys.map pyautoguiMapKey) := by
  refine ⟨?_, ?_, ?_, ?_, fun keys => ⟨rfl, rfl⟩⟩ <;>
    simp only [pigMapKey, pyautoguiMapKey, hlow]
  · intro h; simp [h]
  · intro v h; simp [h]
  · intro h; simp [h]
  · intro v h; simp [h]

/-- C8 witness: a lowercase token absent from both tables passes through
both backends unchanged, via the theorem. -/
theorem keypress_lowercase_passthrough_witness :
    pigMapKey "volumeup" = "volumeup" ∧
    pyautoguiMapKey "volumeup" = "volumeup" :=
  ⟨(keypress_lowercase_passthrough "volumeup" (by decide)).1 (by decide),
   (keypress_lowercase_passthrough "volumeup" (by decide)).2.2.1 (by decide)⟩

/-- C9: complete side-effect trace of the dispatcher at a click and at a
wait computer call.  The trace contains no status-reporter invocation of any
kind — only the unconditional step print, the backend action, and the
screenshot — and the wait action is printed like any other action rather
than suppressed.  (src/server.py passes `status_callback=` to
`Agent.run_full_turn`, whose signature does not accept it.) -/
theorem dispatcher_trace_has_no_status_report :
    (handleItem true false sampleComputer (fun _ => true) (fun _ => false)
        (.computerCall ⟨"click", [("x", 10), ("y", 20)]⟩ "call1" []) =
      (.ok [.computerCallOutput "call1" [] "data:image/png;base64,IMG" none],
       [.printAction "click" [("x", 10), ("y", 20)],
        .actionCall "click" [("x", 10), ("y", 20)], .screenshotCall])) ∧
    ((handleItem true false sampleComputer (fun _ => true) (fun _ => false)
        (.computerCall ⟨"wait", []⟩ "call2" [])).2 =
      [.printAction "wait" [], .actionCall "wait" [], .screenshotCall]) := by
  exact ⟨rfl, rfl⟩

/-- C10: in the PigWindows and E2BDesktop backends, `drag` depends only on
the first and the last point of the path — two paths with equal first and
equal last points issue identical backend calls — and an empty path issues
no backend call at all. -/
theorem drag_uses_only_endpoints (screen_w screen_h : Int)
    (path₁ path₂ : List DragPoint)
    (hhead : path₁.head? = path₂.head?)
    (hlast : path₁.getLast? = path₂.getLast?) :
    (pigDragCalls screen_w screen_h path₁ = pigDragCalls screen_w screen_h path₂ ∧
      e2bDragCalls path₁ = e2bDragCalls path₂) ∧
    (pigDragCalls screen_w screen_h [] = [] ∧ e2bDragCalls [] = []) := by
  refine ⟨?_, rfl, rfl⟩
  cases path₁ with
  | nil =>
    cases path₂ with
    | nil => exact ⟨rfl, rfl⟩
    | cons b t₂ => simp at hhead
  | cons a t₁ =>
    cases path₂ with
    | nil => simp at hhead
    | cons b t₂ =>
      simp only [List.head?_cons, Option.some.injEq] at hhead
      subst hhead
      constructor
      · simp only [pigDragCalls, List.getLastD_eq_getLast?, List.getLast?_map,
          hlast]
        simp only [List.map_cons, List.headD_cons]
      · simp only [e2bDragCalls, List.getLastD_eq_getLast?, hlast]

/-- C10 witness: two concrete paths sharing endpoints but differing in
intermediate points produce identical backend calls, via the theorem. -/
theorem drag_uses_only_endpoints_witness :
    pigDragCalls 1024 768 [⟨1, 2⟩, ⟨9, 9⟩, ⟨3, 4⟩] =
      pigDragCalls 1024 768 [⟨1, 2⟩, ⟨3, 4⟩] ∧
    e2bDragCalls [⟨1, 2⟩, ⟨9, 9⟩, ⟨3, 4⟩] = e2bDragCalls [⟨1, 2⟩, ⟨3, 4⟩] :=
  (drag_uses_only_endpoints 1024 768 [⟨1, 2⟩, ⟨9, 9⟩, ⟨3, 4⟩]
    [⟨1, 2⟩, ⟨3, 4⟩] (by decide) (by decide)).1

/-- C7 counterexample: with a 2048x1536 physical screen, the interior point
(3, 3) — strictly inside the viewport and away from every boundary, so no
clamping is involved — does not survive the round trip: it comes back as
(2, 2).  The integer truncation loses information whenever the physical
dimensions do not divide the model dimensions. -/
theorem coordinate_roundtrip_counterexample :
    to_screen_coordinates 2048 1536
        (to_model_coordinates 2048 1536 3 3).1
        (to_model_coordinates 2048 1536 3 3).2 = (2, 2) ∧
    ((2, 2) : Int × Int) ≠ (3, 3) ∧
    (0 : Int) < 3 ∧ (3 : Int) < 2048 - 1 ∧ (3 : Int) < 1536 - 1 := by
  refine ⟨by decide, by decide, by decide, by decide, by decide⟩

/-- One axis of the clamped scale-down/scale-up round trip, exact whenever
the physical dimension divides the model dimension. -/
theorem clamp_roundtrip_axis (d w p : Int) (hw : 0 < w) (hdvd : w ∣ d)
    (hd1 : 1 ≤ d) (hp0 : 0 ≤ p) (hp : p < w) :
    max 0 (min (pytrunc (max 0 (min (pytrunc (p * d) w) (d - 1)) * w) d)
      (w - 1)) = p := by
  obtain ⟨k, hk⟩ := hdvd
  have hk0 : 0 < k := by nlinarith
  have h1 : pytrunc (p * d) w = p * k := by
    unfold pytrunc
    rw [hk, show p * (w * k) = w * (p * k) by ring]
    exact Int.mul_tdiv_cancel_left _ (by omega)
  have hpk0 : 0 ≤ p * k := by positivity
  have hpk : p * k ≤ d - 1 := by
    nlinarith [mul_le_mul_of_nonneg_right (show p ≤ w - 1 by omega)
      (show (0 : Int) ≤ k by omega)]
  have hm : max 0 (min (pytrunc (p * d) w) (d - 1)) = p * k := by
    rw [h1]; omega
  rw [hm]
  have h2 : pytrunc (p * k * w) d = p := by
    unfold pytrunc
    rw [hk, show p * k * w = w * k * p by ring]
    exact Int.mul_tdiv_cancel_left _ (by nlinarith)
  rw [h2]
  omega

/-- C7 (amended): the model/screen coordinate round trip
`to_screen_coordinates(to_model_coordinates(p)) = p` holds for every point p
inside the physical viewport whenever the physical dimensions divide the
model reference dimensions 1024x768 (in particular when they are equal); for
other screen dimensions the integer truncation makes the per-axis transform
non-invertible and the round trip can fail at interior points. -/
theorem to_screen_to_model_roundtrip (screen_w screen_h x y : Int)
    (hw : 0 < screen_w) (hh : 0 < screen_h)
    (hwd : screen_w ∣ 1024) (hhd : screen_h ∣ 768)
    (hx0 : 0 ≤ x) (hx : x < screen_w) (hy0 : 0 ≤ y) (hy : y < screen_h) :
    to_screen_coordinates screen_w screen_h
        (to_model_coordinates screen_w screen_h x y).1
        (to_model_coordinates screen_w screen_h x y).2 = (x, y) := by
  simp only [to_screen_coordinates, to_model_coordinates, modelDims,
    Prod.mk.injEq]
  exact ⟨clamp_roundtrip_axis 1024 screen_w x hw hwd (by norm_num) hx0 hx,
    clamp_roundtrip_axis 768 screen_h y hh hhd (by norm_num) hy0 hy⟩

/-- C7 witness: the amended round trip at a concrete 512x384 screen (each
dimension divides the model dimension) and the interior point (100, 200). -/
theorem to_screen_to_model_roundtrip_witness :
    to_screen_coordinates 512 384
        (to_model_coordinates 512 384 100 200).1
        (to_model_coordinates 512 384 100 200).2 = (100, 200) :=
  to_screen_to_model_roundtrip 512 384 100 200 (by decide) (by decide)
    (by decide) (by decide) (by decide) (by decide) (by decide) (by decide)

/-- A gate invocation is never a backend action invocation. -/
theorem isConfirm_not_isAction (e : Event) (h : e.isConfirmCall = true) :
    e.isActionCall = false := by
  cases e <;> simp_all [Event.isConfirmCall, Event.isActionCall]

/-- Value of the dispatcher on a computer call, as a function of the first
failing safety check and the browser-only URL check. -/
theorem handleItem_computerCall_fst (printSteps showImages : Bool)
    (comp : Computer) (ack blocked : String → Bool) (action : CompAction)
    (callId : String) (checks : List SafetyCheck) :
    (handleItem printSteps showImages comp ack blocked
        (.computerCall action callId checks)).1 =
      match firstFailedCheck ack checks with
      | some m => .error (safetyFailMsg m)
      | none =>
        if comp.environment == "browser" then
          if blocked comp.currentUrl then
            .error (blockedUrlMsg comp.currentUrl)
          else
            .ok [.computerCallOutput callId checks
              ("data:image/png;base64," ++ comp.screenshotResult)
              (some comp.currentUrl)]
        else
          .ok [.computerCallOutput callId checks
            ("data:image/png;base64," ++ comp.screenshotResult) none] := by
  rcases hrc : runSafetyChecks ack checks with ⟨o, ctr⟩
  rw [show firstFailedCheck ack checks = o by rw [← runSafetyChecks_fst, hrc]]
  simp only [handleItem, hrc]
  cases o with
  | some m => simp
  | none =>
    by_cases he : comp.environment == "browser" <;>
      by_cases hb : blocked comp.currentUrl <;> simp [he, hb]

/-- Trace of the dispatcher on a computer call: the step print (when
enabled), then exactly one backend action invocation, then the screenshot,
then the optional image display, then the gate invocations, then an
action-free, gate-free tail (the browser-only URL events). -/
theorem handleItem_computerCall_trace (printSteps showImages : Bool)
    (comp : Computer) (ack blocked : String → Bool) (action : CompAction)
    (callId : String) (checks : List SafetyCheck) :
    ∃ tail,
      (handleItem printSteps showImages comp ack blocked
          (.computerCall action callId checks)).2 =
        (if printSteps then [Event.printAction action.actionType action.args]
          else []) ++
        Event.actionCall action.actionType action.args ::
        Event.screenshotCall ::
        ((if showImages then [Event.showImageCall comp.screenshotResult]
            else []) ++
          ((runSafetyChecks ack checks).2 ++ tail)) ∧
      ∀ e ∈ tail, e.isActionCall = false ∧ e.isConfirmCall = false := by
  rcases hrc : runSafetyChecks ack checks with ⟨o, ctr⟩
  simp only [handleItem, hrc]
  cases o with
  | some m => exact ⟨[], by simp [List.append_assoc], by simp⟩
  | none =>
    by_cases he : comp.environment == "browser"
    · by_cases hb : blocked comp.currentUrl <;>
        exact ⟨[Event.getCurrentUrlCall, Event.urlBlocklistCheck comp.currentUrl],
          by simp [he, hb, List.append_assoc],
          by simp [Event.isActionCall, Event.isConfirmCall]⟩
    · exact ⟨[], by simp [he, List.append_assoc], by simp⟩

/-- C1: on every computer call the backend action is invoked exactly once
and the screenshot is captured before any safety check is confirmed; if some
pending check's acknowledgment callback returns false, the dispatch raises a
fatal error naming that check's message, and no output item is produced for
the call. -/
theorem computer_call_safety_gate (printSteps showImages : Bool)
    (comp : Computer) (ack blocked : String → Bool) (action : CompAction)
    (callId : String) (checks : List SafetyCheck) :
    ((handleItem printSteps showImages comp ack blocked
        (.computerCall action callId checks)).2.filter Event.isActionCall =
      [.actionCall action.actionType action.args]) ∧
    (∃ pre post,
      (handleItem printSteps showImages comp ack blocked
          (.computerCall action callId checks)).2 =
        pre ++ Event.screenshotCall :: post ∧
      ∀ e ∈ pre, e.isConfirmCall = false) ∧
    ((∃ c ∈ checks, ack c.message = false) →
      ∃ c ∈ checks, ack c.message = false ∧
        (handleItem printSteps showImages comp ack blocked
            (.computerCall action callId checks)).1 =
          .error (safetyFailMsg c.message) ∧
        ∀ outs, (handleItem printSteps showImages comp ack blocked
            (.computerCall action callId checks)).1 ≠ .ok outs) := by
  obtain ⟨tail, htr, htail⟩ := handleItem_computerCall_trace printSteps
    showImages comp ack blocked action callId checks
  refine ⟨?_, ?_, ?_⟩
  · rw [htr]
    have hconf : ∀ e ∈ (runSafetyChecks ack checks).2,
        Event.isActionCall e = false := fun e he =>
      isConfirm_not_isAction e (runSafetyChecks_events ack checks e he)
    by_cases hps : printSteps <;> by_cases hsi : showImages <;>
      simp_all [List.filter_append, List.filter_cons, Event.isActionCall,
        List.filter_eq_nil_iff]
  · refine ⟨(if printSteps then
        [Event.printAction action.actionType action.args] else []) ++
        [Event.actionCall action.actionType action.args],
      (if showImages then [Event.showImageCall comp.screenshotResult]
        else []) ++ ((runSafetyChecks ack checks).2 ++ tail), ?_, ?_⟩
    · rw [htr]; simp [List.append_assoc]
    · intro e he
      by_cases hps : printSteps <;>
        simp_all [Event.isConfirmCall] <;>
        rcases he with rfl | rfl <;> simp [Event.isConfirmCall]
  · rintro ⟨c, hc, hack⟩
    obtain ⟨c', hfind⟩ : ∃ c',
        checks.find? (fun ch => !(ack ch.message)) = some c' := by
      have hs : (checks.find? (fun ch => !(ack ch.message))).isSome := by
        rw [List.find?_isSome]
        exact ⟨c, hc, by simp [hack]⟩
      exact Option.isSome_iff_exists.mp hs
    have hmem : c' ∈ checks := List.mem_of_find?_eq_some hfind
    have hackc' : ack c'.message = false := by
      have := List.find?_some hfind
      simpa using this
    refine ⟨c', hmem, hackc', ?_, ?_⟩
    · rw [handleItem_computerCall_fst]
      simp [firstFailedCheck, hfind]
    · intro outs
      rw [handleItem_computerCall_fst]
      simp [firstFailedCheck, hfind]

/-- C1 witness: the safety scenario of the spec — one pending check with
message "delete file" and a gate stub returning false — at a concrete click
call: the action ran once, the screenshot preceded the gate, and the
dispatch raised the named fatal error. -/
theorem computer_call_safety_gate_witness :
    (handleItem true false sampleComputer (fun _ => false) (fun _ => false)
        (.computerCall ⟨"click", [("x", 10), ("y", 20)]⟩ "call1"
          [⟨1, "delete file"⟩])).1 =
      .error (safetyFailMsg "delete file") := by
  obtain ⟨c, hc, -, h, -⟩ :=
    (computer_call_safety_gate true false sampleComputer (fun _ => false)
      (fun _ => false) ⟨"click", [("x", 10), ("y", 20)]⟩ "call1"
      [⟨1, "delete file"⟩]).2.2 ⟨⟨1, "delete file"⟩, by simp, rfl⟩
  have : c = ⟨1, "delete file"⟩ := by simpa using hc
  rw [this] at h
  exact h

/-- C2: the turn loop terminates exactly when, after a full response and its
dispatched outputs have been processed, the last accumulated item carries
role "assistant", and it then returns the accumulated items; for a model
transport stubbed to return a single assistant message on the first call,
`run_full_turn` returns exactly that one item. -/
theorem turn_loop_terminates_on_assistant (printSteps debug showImages : Bool)
    (comp : Computer) (ack blocked : String → Bool)
    (respond : List Item → ModelResponse) (inputItems : List Item) :
    (∀ fuel newItems result,
      runFullTurnAux printSteps debug showImages comp ack blocked respond
          inputItems fuel newItems = .done result →
      result.getLast?.bind Item.roleGet = some "assistant") ∧
    (∀ fuel newItems,
      newItems.getLast?.bind Item.roleGet = some "assistant" →
      runFullTurnAux printSteps debug showImages comp ack blocked respond
          inputItems fuel newItems = .done newItems) ∧
    (∀ text : String,
      runFullTurn printSteps debug showImages comp ack blocked
          (fun _ => ⟨some [.message "assistant" text]⟩) inputItems 1 =
        .done [.message "assistant" text]) := by
  refine ⟨?_, ?_, ?_⟩
  · intro fuel
    induction fuel with
    | zero =>
      intro newItems result h
      simp only [runFullTurnAux] at h
      by_cases hc : loopContinues newItems
      · simp [hc] at h
      · rw [if_neg hc] at h
        cases h
        exact (loopContinues_false_iff _).mp (by simpa using hc)
    | succ fuel ih =>
      intro newItems result h
      simp only [runFullTurnAux] at h
      by_cases hc : loopContinues newItems
      · rw [if_pos hc] at h
        split at h
        · by_cases hd : debug <;> simp [hd] at h
        · split at h
          · simp at h
          · exact ih _ result h
      · rw [if_neg hc] at h
        cases h
        exact (loopContinues_false_iff _).mp (by simpa using hc)
  · intro fuel newItems hrole
    have hc : loopContinues newItems = false :=
      (loopContinues_false_iff _).mpr hrole
    cases fuel <;> simp [runFullTurnAux, hc]
  · intro text
    rfl

/-- C2 witness: the stubbed transport instance of the theorem at concrete
parameters. -/
theorem turn_loop_terminates_on_assistant_witness :
    runFullTurn true false false sampleComputer (fun _ => true)
        (fun _ => false) (fun _ => ⟨some [.message "assistant" "Done."]⟩)
        [] 1 =
      .done [.message "assistant" "Done."] :=
  (turn_loop_terminates_on_assistant true false false sampleComputer
    (fun _ => true) (fun _ => false)
    (fun _ => ⟨some [.message "assistant" "Done."]⟩) []).2.2 "Done."

/-- C5: when the dispatcher processes a function call or a computer call to
completion, the single output item it returns carries the same call-id as
the call. -/
theorem call_id_propagation (printSteps showImages : Bool) (comp : Computer)
    (ack blocked : String → Bool) :
    (∀ name arguments callId outs trace,
      handleItem printSteps showImages comp ack blocked
          (.functionCall name arguments callId) = (.ok outs, trace) →
      ∀ out ∈ outs, out.callIdGet = some callId) ∧
    (∀ action callId checks outs trace,
      handleItem printSteps showImages comp ack blocked
          (.computerCall action callId checks) = (.ok outs, trace) →
      ∀ out ∈ outs, out.callIdGet = some callId) := by
  constructor
  · intro name arguments callId outs trace h
    have h1 := congrArg Prod.fst h
    simp only [handleItem] at h1
    obtain rfl : [Item.functionCallOutput callId "success"] = outs := by
      simpa using h1
    simp [Item.callIdGet]
  · intro action callId checks outs trace h
    have h1 := congrArg Prod.fst h
    rw [handleItem_computerCall_fst] at h1
    simp only at h1
    cases hf : firstFailedCheck ack checks with
    | some m => rw [hf] at h1; simp at h1
    | none =>
      rw [hf] at h1
      by_cases he : comp.environment == "browser"
      · rw [if_pos he] at h1
        by_cases hb : blocked comp.currentUrl
        · rw [if_pos hb] at h1; simp at h1
        · rw [if_neg hb] at h1
          obtain rfl : [Item.computerCallOutput callId checks
              ("data:image/png;base64," ++ comp.screenshotResult)
              (some comp.currentUrl)] = outs := by simpa using h1
          simp [Item.callIdGet]
      · rw [if_neg he] at h1
        obtain rfl : [Item.computerCallOutput callId checks
            ("data:image/png;base64," ++ comp.screenshotResult) none] =
            outs := by simpa using h1
        simp [Item.callIdGet]

/-- C5 witness: call-id propagation at a concrete function call dispatched
through the sample Surface, via the theorem. -/
theorem call_id_propagation_witness :
    (Item.functionCallOutput "c9" "success").callIdGet = some "c9" :=
  (call_id_propagation true false sampleComputer (fun _ => true)
    (fun _ => false)).1 "keypress" "args" "c9"
    [.functionCallOutput "c9" "success"]
    [.printCall "keypress" "args", .methodCall "keypress" "args"] rfl
    (Item.functionCallOutput "c9" "success") (by simp)

end Cua
